import Mathlib

/-
Verification of src/ram_monitor.py: a single-loop RAM monitor that samples
memory usage, compares it against a configured threshold, and POSTs an alert
to an HTTP endpoint when the threshold is exceeded.

Shallow embedding conventions:
- Python floats (psutil's percent, the bytes/2^30 ratio) are modelled as
  exact rationals ℚ.  Every concrete value exercised by the claims is exactly
  representable as a double, so the rational model agrees with the Python
  float semantics at those points.
- Side effects are reified: emitted log lines and attempted HTTP POSTs are
  returned as lists of events; an uncaught Python exception is a `raised`
  flag on the result (true means the exception propagates past the function).
- The nondeterministic environment (what the OS metrics read returns, how the
  network responds) is an explicit input: `Option MemorySample` for
  psutil.virtual_memory (none = the read raises), and `NetOutcome` for the
  requests.post call (an HTTP status, or a RequestException).
-/

set_option autoImplicit false

namespace RamMonitor

/-- Left-pad a digit string with zeros to length `k`
(used for fixed-width fractional parts). -/
def padZeros (k : ℕ) (s : String) : String :=
  String.mk (List.replicate (k - s.length) '0') ++ s

/-- Round the fraction `a / b` (with `b > 0`) to the nearest integer, ties to
even: the rounding used by Python's `"\x7b:.2f\x7d".format` on the exact value
of its argument.  The fraction is carried as an integer pair because that is
an exact representation of the float value being formatted. -/
def roundHalfEven (a b : ℤ) : ℤ :=
  let f := a / b
  let r := a % b
  if 2 * r < b then f
  else if b < 2 * r then f + 1
  else if f % 2 = 0 then f else f + 1

/-- Python `"\x7b:.2f\x7d".format` applied to the value `a / b` (with `b > 0`):
the value rounded to hundredths (ties to even), rendered with exactly two
digits after the decimal point. -/
def pyFormatF2 (a b : ℤ) : String :=
  let k := roundHalfEven (a * 100) b
  toString (k / 100) ++ "." ++ padZeros 2 (toString (k % 100))

/-- src/ram_monitor.py line 18: `bytes_to_gb`.
Python computes `"\x7b:.2f\x7d GB".format(bytes_size / (1024**3))`; the float
`bytes_size / (1024**3)` is modelled by the exact fraction
`bytes_size / 2^30` (exact for the byte counts in the claims, and the
double's relative error is far below the half-hundredth rounding granularity
for any realistic size). -/
def bytes_to_gb (bytes_size : ℕ) : String :=
  pyFormatF2 (bytes_size : ℤ) (1024 ^ 3) ++ " GB"

/-- Python's `repr` (f-string rendering) of a nonnegative float whose value is
an exact decimal, e.g. `75.0` renders as "75.0" and `75.3` as "75.3":
the shortest decimal expansion, with at least one digit after the point.
psutil's `percent` is rounded to one decimal, so every value reaching an
f-string in this program is decimal-exact and round-trips shortest. -/
def pyFloatRepr (q : ℚ) : String :=
  match (List.range 18).find? (fun k => q.num * 10 ^ k % (q.den : ℤ) == 0) with
  | some 0 => toString q.num ++ ".0"
  | some k =>
      let n : ℤ := q.num * 10 ^ k / (q.den : ℤ)
      toString (n / (10 : ℤ) ^ k) ++ "." ++ padZeros k (toString (n % (10 : ℤ) ^ k))
  | none => toString q.num ++ "/" ++ toString q.den

/-- Process-wide configuration, src/ram_monitor.py lines 11-13:
populated once at import from the environment, never mutated afterwards
(every function below takes it as a read-only parameter). -/
structure Config where
  USAGE_THRESHOLD : ℤ
  CHECK_INTERVAL : ℤ
  API_URL : String
deriving DecidableEq

/-- The three environment variables the program reads; `none` models an unset
variable, `some s` a variable set to the string `s`. -/
structure Env where
  USAGE_THRESHOLD : Option String
  CHECK_INTERVAL : Option String
  API_URL : Option String
deriving DecidableEq

/-- Python `int(s)` on a string: strip surrounding whitespace, optional sign,
then decimal digits; `none` models a raised ValueError. -/
def pyInt (s : String) : Option ℤ :=
  let digitsVal : List Char → Option ℕ := fun cs =>
    if cs.isEmpty then none
    else cs.foldlM (fun acc c =>
      if c.isDigit then some (acc * 10 + (c.toNat - 48)) else none) 0
  match s.trim.toList with
  | '-' :: rest => (digitsVal rest).map (fun n => -(n : ℤ))
  | '+' :: rest => (digitsVal rest).map (fun n => (n : ℤ))
  | cs => (digitsVal cs).map (fun n => (n : ℤ))

/-- Python `int(os.environ.get(name) or default)` with an integer default:
`or` selects the default when the variable is unset (None) or set to the
falsy empty string; otherwise the string is parsed by `int`. -/
def intOr (v : Option String) (default : ℤ) : Option ℤ :=
  match v with
  | none => some default
  | some s => if s = "" then some default else pyInt s

/-- Python `os.environ.get(name) or default` with a string default. -/
def strOr (v : Option String) (default : String) : String :=
  match v with
  | none => default
  | some s => if s = "" then default else s

/-- src/ram_monitor.py lines 11-13: the module-level configuration, read once
at process start; `none` models an uncaught ValueError from `int`. -/
def configOf (e : Env) : Option Config := do
  let t ← intOr e.USAGE_THRESHOLD 50
  let i ← intOr e.CHECK_INTERVAL 5
  pure ⟨t, i, strOr e.API_URL "https://1.1.1.1"⟩

/-- Severity of an emitted log line (the three levels this program uses). -/
inductive LogLevel
  | info
  | error
  | critical
deriving DecidableEq

/-- One line emitted through the module logger. -/
structure LogLine where
  level : LogLevel
  text : String
deriving DecidableEq

/-- One attempted HTTP POST: `requests.post(url, data=payload)` with a
form-encoded body given as field-name/value pairs. -/
structure PostRequest where
  url : String
  payload : List (String × String)
deriving DecidableEq

/-- How the network responds to the single `requests.post` call: an HTTP
response with some status code, or a raised
`requests.exceptions.RequestException` rendered as the string `str(e)`. -/
inductive NetOutcome
  | response (status : ℕ)
  | exn (text : String)
deriving DecidableEq

/-- Events produced by one call into the program: the POSTs attempted, the
log lines emitted, and whether an exception escaped the call. -/
structure EffectTrace where
  posts : List PostRequest
  logs : List LogLine
  raised : Bool
deriving DecidableEq

/-- src/ram_monitor.py lines 44-55: `send_alert(message)`.
Always performs exactly one POST of `\x7b"message": message\x7d` to API_URL.
Status 200 logs one info line; any other status logs one error line; a
RequestException is caught and logs one error line.  No branch re-raises,
so `raised` is false on every path. -/
def send_alert (cfg : Config) (message : String) (net : NetOutcome) : EffectTrace :=
  let post : PostRequest := ⟨cfg.API_URL, [("message", message)]⟩
  match net with
  | .response status =>
      if status = 200 then
        ⟨[post], [⟨.info, "Alarm was sent successfully!"⟩], false⟩
      else
        ⟨[post], [⟨.error, "Error sending alarm: " ++ toString status⟩], false⟩
  | .exn e => ⟨[post], [⟨.error, "Error sending alarm: " ++ e⟩], false⟩

/-- One RAM sample as returned by `get_ram_info` (lines 22-28):
total physical memory in bytes and percent used (a Python float). -/
structure MemorySample where
  total_ram : ℕ
  percent_used : ℚ
deriving DecidableEq

/-- The alert message built at src/ram_monitor.py line 37:
f"RAM usage exceeded \x7bUSAGE_THRESHOLD\x7d% of \x7btotal_ram_gb\x7d: \x7bpercent_used\x7d%!". -/
def messageOf (cfg : Config) (total_ram : ℕ) (percent_used : ℚ) : String :=
  "RAM usage exceeded " ++ toString cfg.USAGE_THRESHOLD ++ "% of "
    ++ bytes_to_gb total_ram ++ ": " ++ pyFloatRepr percent_used ++ "%!"

/-- src/ram_monitor.py lines 31-41: `check_ram()`, one monitoring cycle.
`sample = none` models `psutil.virtual_memory()` raising (no usable OS
statistics): nothing has been logged yet and the exception propagates
uncaught, so the trace is empty with `raised = true`.  Otherwise the percent
is compared against the threshold: above it, the message is logged at
critical severity and passed to `send_alert`; at or below it, one info line
is logged. -/
def check_ram (cfg : Config) (sample : Option MemorySample) (net : NetOutcome) :
    EffectTrace :=
  match sample with
  | none => ⟨[], [], true⟩
  | some s =>
      let total_ram_gb := bytes_to_gb s.total_ram
      if (cfg.USAGE_THRESHOLD : ℚ) < s.percent_used then
        let message := messageOf cfg s.total_ram s.percent_used
        let r := send_alert cfg message net
        ⟨r.posts, ⟨.critical, message⟩ :: r.logs, r.raised⟩
      else
        ⟨[], [⟨.info, "RAM usage: " ++ pyFloatRepr s.percent_used ++ "% of " ++ total_ram_gb⟩],
          false⟩

/-- src/ram_monitor.py lines 85-95: firing times of the self-rescheduling
`daemon` under the documented semantics of `sched.scheduler(time.time,
time.sleep)`.  `daemonTimes startup I d n = (scheduled, actual)` for the
n-th firing (0-based), where `d n` is how long the n-th cycle body takes.
The first event is entered with delay 0 at startup (line 94).  On each
firing, `daemon` first enters the next event with delay CHECK_INTERVAL
(line 87) -- `sched.enter` timestamps it `timefunc() + delay`, i.e. relative
to the moment the current firing started, before `check_ram()` runs -- and
the scheduler then runs an event at its scheduled time or as soon as the
previous cycle finishes, whichever is later. -/
def daemonTimes (startup I : ℚ) (d : ℕ → ℚ) : ℕ → ℚ × ℚ
  | 0 => (startup, startup)
  | n + 1 =>
      let prev := daemonTimes startup I d n
      let sch := prev.2 + I
      (sch, max sch (prev.2 + d n))

/-- `pat` occurs as a contiguous substring of `s` (character-for-character). -/
def listStartsWith : List Char → List Char → Bool
  | [], _ => true
  | _ :: _, [] => false
  | p :: ps, c :: cs => p == c && listStartsWith ps cs

/-- Search every suffix of the haystack for the pattern. -/
def listHasSub (pat : List Char) : List Char → Bool
  | [] => listStartsWith pat []
  | c :: cs => listStartsWith pat (c :: cs) || listHasSub pat cs

/-- `strHasSub s pat` is true iff `pat` is a contiguous substring of `s`. -/
def strHasSub (s pat : String) : Bool :=
  listHasSub pat.toList s.toList

/-- The configuration obtained from an empty environment: all defaults. -/
def defaultConfig : Config := ⟨50, 5, "https://1.1.1.1"⟩

/-! ### Helper lemmas (shared by several claim proofs) -/

/-- Every code path of `send_alert` performs exactly the one POST of the
message to the configured URL. -/
theorem send_alert_posts_eq (cfg : Config) (m : String) (net : NetOutcome) :
    (send_alert cfg m net).posts = [⟨cfg.API_URL, [("message", m)]⟩] := by
  cases net with
  | response status => by_cases hs : status = 200 <;> simp [send_alert, hs]
  | exn e => rfl

/-- No code path of `send_alert` lets an exception escape. -/
theorem send_alert_raised_eq (cfg : Config) (m : String) (net : NetOutcome) :
    (send_alert cfg m net).raised = false := by
  cases net with
  | response status => by_cases hs : status = 200 <;> simp [send_alert, hs]
  | exn e => rfl

/-- Unfolding `check_ram` on a sample at or below the threshold. -/
theorem check_ram_some_le (cfg : Config) (s : MemorySample) (net : NetOutcome)
    (h : s.percent_used ≤ (cfg.USAGE_THRESHOLD : ℚ)) :
    check_ram cfg (some s) net =
      ⟨[], [⟨.info, "RAM usage: " ++ pyFloatRepr s.percent_used ++ "% of "
        ++ bytes_to_gb s.total_ram⟩], false⟩ := by
  simp [check_ram, not_lt.mpr h]

/-- Unfolding `check_ram` on a sample strictly above the threshold. -/
theorem check_ram_some_gt (cfg : Config) (s : MemorySample) (net : NetOutcome)
    (h : (cfg.USAGE_THRESHOLD : ℚ) < s.percent_used) :
    check_ram cfg (some s) net =
      ⟨(send_alert cfg (messageOf cfg s.total_ram s.percent_used) net).posts,
        ⟨.critical, messageOf cfg s.total_ram s.percent_used⟩ ::
          (send_alert cfg (messageOf cfg s.total_ram s.percent_used) net).logs,
        (send_alert cfg (messageOf cfg s.total_ram s.percent_used) net).raised⟩ := by
  simp [check_ram, h]

/-- `roundHalfEven a b` is within one half of the exact value `a / b`
whenever the denominator is positive. -/
theorem roundHalfEven_close (a b : ℤ) (hb : 0 < b) :
    |((roundHalfEven a b : ℤ) : ℚ) - (a : ℚ) / (b : ℚ)| ≤ 1 / 2 := by
  have hb0 : (0 : ℚ) < (b : ℚ) := by exact_mod_cast hb
  have hbne : (b : ℚ) ≠ 0 := ne_of_gt hb0
  have hsum : (b : ℤ) * (a / b) + a % b = a := Int.ediv_add_emod a b
  have hr0 : (0 : ℚ) ≤ ((a % b : ℤ) : ℚ) := by
    exact_mod_cast Int.emod_nonneg a (by omega)
  have hrb : ((a % b : ℤ) : ℚ) < (b : ℚ) := by
    exact_mod_cast Int.emod_lt_of_pos a hb
  have hdiv : (a : ℚ) / (b : ℚ) = ((a / b : ℤ) : ℚ) + ((a % b : ℤ) : ℚ) / (b : ℚ) := by
    have hcast : ((b : ℚ)) * ((a / b : ℤ) : ℚ) + ((a % b : ℤ) : ℚ) = (a : ℚ) := by
      exact_mod_cast hsum
    field_simp
    linear_combination -hcast
  have hfrac1 : ((a % b : ℤ) : ℚ) / (b : ℚ) ≤ 1 := (div_le_one hb0).mpr hrb.le
  have hfrac0 : (0 : ℚ) ≤ ((a % b : ℤ) : ℚ) / (b : ℚ) := div_nonneg hr0 hb0.le
  simp only [roundHalfEven]
  split_ifs with h1 h2 h3
  · have h1q : 2 * ((a % b : ℤ) : ℚ) < (b : ℚ) := by exact_mod_cast h1
    have hhalf : ((a % b : ℤ) : ℚ) / (b : ℚ) ≤ 1 / 2 := by
      rw [div_le_div_iff₀ hb0 (by norm_num : (0 : ℚ) < 2)]
      linarith
    rw [hdiv]
    have he : ((a / b : ℤ) : ℚ) - (((a / b : ℤ) : ℚ) + ((a % b : ℤ) : ℚ) / (b : ℚ))
        = -(((a % b : ℤ) : ℚ) / (b : ℚ)) := by ring
    rw [he, abs_neg, abs_of_nonneg hfrac0]
    exact hhalf
  · have h2q : (b : ℚ) < 2 * ((a % b : ℤ) : ℚ) := by exact_mod_cast h2
    have hhalf : 1 / 2 ≤ ((a % b : ℤ) : ℚ) / (b : ℚ) := by
      rw [le_div_iff₀ hb0]
      linarith
    rw [hdiv]
    have he : ((a / b + 1 : ℤ) : ℚ) - (((a / b : ℤ) : ℚ) + ((a % b : ℤ) : ℚ) / (b : ℚ))
        = 1 - ((a % b : ℤ) : ℚ) / (b : ℚ) := by push_cast; ring
    rw [he, abs_le]
    constructor <;> linarith
  all_goals {
    have heq : 2 * (a % b) = b := le_antisymm (not_lt.mp h2) (not_lt.mp h1)
    have heqq : 2 * ((a % b : ℤ) : ℚ) = (b : ℚ) := by exact_mod_cast heq
    have hhalf : ((a % b : ℤ) : ℚ) / (b : ℚ) = 1 / 2 := by
      rw [div_eq_iff hbne]
      linarith
    rw [hdiv, hhalf]
    push_cast
    rw [abs_le]
    constructor <;> linarith
  }

/-! ### Claim theorems -/

/-- Claim C1: in every cycle, a sampled percent at or below the threshold
dispatches nothing (no POST is attempted, one informational log line is
emitted), while a percent strictly above the threshold makes exactly one
dispatch, i.e. exactly one call to `send_alert` and hence one POST attempt. -/
theorem check_ram_threshold (cfg : Config) (s : MemorySample) (net : NetOutcome) :
    (s.percent_used ≤ (cfg.USAGE_THRESHOLD : ℚ) →
      (check_ram cfg (some s) net).posts = [] ∧
      ∃ t, (check_ram cfg (some s) net).logs = [⟨.info, t⟩]) ∧
    ((cfg.USAGE_THRESHOLD : ℚ) < s.percent_used →
      (check_ram cfg (some s) net).posts.length = 1) := by
  constructor
  · intro h
    rw [check_ram_some_le cfg s net h]
    exact ⟨rfl, _, rfl⟩
  · intro h
    rw [check_ram_some_gt cfg s net h, send_alert_posts_eq]
    rfl

/-- Witness for C1: with the default threshold 50, a 40% sample posts
nothing and a 75% sample posts exactly once. -/
theorem check_ram_threshold_witness :
    (check_ram defaultConfig (some ⟨1073741824, 40⟩) (.response 200)).posts = [] ∧
    (check_ram defaultConfig (some ⟨1073741824, 75⟩) (.response 200)).posts.length = 1 :=
  ⟨((check_ram_threshold defaultConfig ⟨1073741824, 40⟩ (.response 200)).1 (by decide)).1,
   (check_ram_threshold defaultConfig ⟨1073741824, 75⟩ (.response 200)).2 (by decide)⟩

/-- Claim C2: `send_alert` always returns normally having attempted exactly
one POST; status 200 yields exactly one informational log line, any other
status exactly one error log line, and a network-layer exception is caught
and yields exactly one error log line. -/
theorem send_alert_spec (cfg : Config) (message : String) (net : NetOutcome) :
    (send_alert cfg message net).raised = false ∧
    (send_alert cfg message net).posts.length = 1 ∧
    (net = .response 200 →
      (send_alert cfg message net).logs = [⟨.info, "Alarm was sent successfully!"⟩]) ∧
    (∀ status, status ≠ 200 → net = .response status →
      (send_alert cfg message net).logs
        = [⟨.error, "Error sending alarm: " ++ toString status⟩]) ∧
    (∀ e, net = .exn e →
      (send_alert cfg message net).logs = [⟨.error, "Error sending alarm: " ++ e⟩]) := by
  refine ⟨send_alert_raised_eq cfg message net, ?_, ?_, ?_, ?_⟩
  · rw [send_alert_posts_eq]
    rfl
  · rintro rfl
    rfl
  · rintro status hs rfl
    simp [send_alert, hs]
  · rintro e rfl
    rfl

/-- Witness for C2: a 500 response produces the single error log line and
one POST attempt; a 200 response produces the single info line. -/
theorem send_alert_spec_witness :
    (send_alert defaultConfig "m" (.response 500)).logs
      = [⟨.error, "Error sending alarm: 500"⟩] ∧
    (send_alert defaultConfig "m" (.response 500)).posts.length = 1 ∧
    (send_alert defaultConfig "m" (.response 200)).logs
      = [⟨.info, "Alarm was sent successfully!"⟩] :=
  ⟨(send_alert_spec defaultConfig "m" (.response 500)).2.2.2.1 500 (by decide) rfl,
   (send_alert_spec defaultConfig "m" (.response 500)).2.1,
   (send_alert_spec defaultConfig "m" (.response 200)).2.2.1 rfl⟩

/-- Claim C3 counterexample: with threshold 50, total_bytes 8·1024³ and
percent_used 75, the message the cycle constructs and dispatches is
"RAM usage exceeded 50% of 8.00 GB: 75.0%!" -- the percent is a Python float
and renders as "75.0", so the contiguous substring "75%" does NOT occur in
the alert message, contrary to the claim. -/
theorem alert_message_counterexample :
    (check_ram defaultConfig (some ⟨8 * 1024 ^ 3, 75⟩) (.response 200)).posts =
      [⟨"https://1.1.1.1", [("message", "RAM usage exceeded 50% of 8.00 GB: 75.0%!")]⟩] ∧
    strHasSub "RAM usage exceeded 50% of 8.00 GB: 75.0%!" "75%" = false := by decide

/-- Claim C3 (amended): for total_bytes = 8·1024³ and percent_used = 75 with
threshold = 50, the alert message constructed and dispatched by the cycle
function contains the substring "75.0%" (the percent rendered as the float
75.0) and the substring "8.00 GB". -/
theorem alert_message_contents :
    (check_ram defaultConfig (some ⟨8 * 1024 ^ 3, 75⟩) (.response 200)).posts =
      [⟨"https://1.1.1.1", [("message", "RAM usage exceeded 50% of 8.00 GB: 75.0%!")]⟩] ∧
    strHasSub "RAM usage exceeded 50% of 8.00 GB: 75.0%!" "75.0%" = true ∧
    strHasSub "RAM usage exceeded 50% of 8.00 GB: 75.0%!" "8.00 GB" = true := by decide

/-- Claim C4: the scheduler fires the first cycle at startup (the event is
entered with delay 0); each firing enters the next event `I` after its own
firing time, before executing the cycle; and when no cycle overruns the
interval (`0 ≤ d n ≤ I`), the n-th firing (0-based) occurs exactly at
`startup + n * I`. -/
theorem scheduler_firing_times (startup I : ℚ) (d : ℕ → ℚ)
    (hd : ∀ n, 0 ≤ d n ∧ d n ≤ I) :
    (daemonTimes startup I d 0).1 = startup ∧
    (∀ n, (daemonTimes startup I d (n + 1)).1 = (daemonTimes startup I d n).2 + I) ∧
    ∀ n, (daemonTimes startup I d n).2 = startup + n * I := by
  refine ⟨rfl, fun n => rfl, fun n => ?_⟩
  induction n with
  | zero => simp [daemonTimes]
  | succ n ih =>
      have h1 := (hd n).1
      have h2 := (hd n).2
      simp only [daemonTimes]
      rw [max_eq_left (by linarith : (daemonTimes startup I d n).2 + d n
        ≤ (daemonTimes startup I d n).2 + I)]
      rw [ih]
      push_cast
      ring

/-- Witness for C4: with startup 0, interval 5 and every cycle taking 1,
the fourth firing (index 3) occurs at time 15. -/
theorem scheduler_firing_times_witness :
    (daemonTimes 0 5 (fun _ => 1) 3).2 = 0 + ((3 : ℕ) : ℚ) * 5 :=
  (scheduler_firing_times 0 5 (fun _ => 1)
    (fun _ => ⟨by norm_num, by norm_num⟩)).2.2 3

/-- Claim C5: `bytes_to_gb 1073741824 = "1.00 GB"` and
`bytes_to_gb 0 = "0.00 GB"`; in general the rendered string is a number with
exactly two digits after the decimal point followed by " GB", whose value is
within half a hundredth of the exact ratio `n / 1024³`. -/
theorem bytes_to_gb_spec :
    bytes_to_gb 1073741824 = "1.00 GB" ∧ bytes_to_gb 0 = "0.00 GB" ∧
    ∀ n : ℕ, ∃ k : ℤ,
      bytes_to_gb n
        = toString (k / 100) ++ "." ++ padZeros 2 (toString (k % 100)) ++ " GB" ∧
      |(k : ℚ) / 100 - (n : ℚ) / 1024 ^ 3| ≤ 1 / 200 := by
  refine ⟨by decide, by decide,
    fun n => ⟨roundHalfEven ((n : ℤ) * 100) (1024 ^ 3), rfl, ?_⟩⟩
  have h := roundHalfEven_close ((n : ℤ) * 100) (1024 ^ 3) (by norm_num)
  have e : ((roundHalfEven ((n : ℤ) * 100) (1024 ^ 3) : ℤ) : ℚ) / 100 - (n : ℚ) / 1024 ^ 3
      = (((roundHalfEven ((n : ℤ) * 100) (1024 ^ 3) : ℤ) : ℚ)
          - (((n : ℤ) * 100 : ℤ) : ℚ) / (((1024 : ℤ) ^ 3 : ℤ) : ℚ)) / 100 := by
    push_cast
    ring
  rw [e, abs_div, abs_of_pos (show (0 : ℚ) < 100 by norm_num),
    div_le_iff₀ (show (0 : ℚ) < 100 by norm_num)]
  linarith [h]

/-- Claim C6 counterexample: in the cycle in which the metrics read fails,
the exception escapes the cycle function but NO log line at all is emitted
by the monitor -- the claim's "it is logged" does not hold on the code
(get_ram_info is the first statement of check_ram and nothing catches or
logs its exception). -/
theorem metrics_failure_unlogged :
    (check_ram defaultConfig none (.response 200)).raised = true ∧
    (check_ram defaultConfig none (.response 200)).logs = [] := by decide

/-- Claim C6 (amended): a failed metrics read is the one condition that
propagates past the cycle function's boundary, terminating the cycle; it is
not logged by the monitor and not retried, and no dispatch (and no log line)
is attempted in that cycle; every cycle with a successful metrics read lets
no exception escape. -/
theorem metrics_failure_propagates (cfg : Config) (net : NetOutcome) :
    (check_ram cfg none net).raised = true ∧
    (check_ram cfg none net).logs = [] ∧
    (check_ram cfg none net).posts = [] ∧
    ∀ s : MemorySample, (check_ram cfg (some s) net).raised = false := by
  refine ⟨rfl, rfl, rfl, fun s => ?_⟩
  by_cases h : (cfg.USAGE_THRESHOLD : ℚ) < s.percent_used
  · rw [check_ram_some_gt cfg s net h]
    exact send_alert_raised_eq cfg _ net
  · rw [check_ram_some_le cfg s net (not_lt.mp h)]

/-- Claim C7: with all three environment variables unset, the configuration
is USAGE_THRESHOLD = 50, CHECK_INTERVAL = 5 and API_URL the placeholder
address "https://1.1.1.1" (the values are read once into module-level
constants; the embedding passes them as a read-only `Config` everywhere, so
nothing below can mutate them). -/
theorem config_defaults_when_unset :
    configOf ⟨none, none, none⟩ = some ⟨50, 5, "https://1.1.1.1"⟩ := by decide

/-- Claim C8: every dispatch performs exactly one POST, to the configured
API_URL, whose form-encoded body has exactly one field, named "message",
holding the alert message string -- on every network outcome. -/
theorem dispatch_single_message_field (cfg : Config) (m : String) (net : NetOutcome) :
    (send_alert cfg m net).posts = [⟨cfg.API_URL, [("message", m)]⟩] :=
  send_alert_posts_eq cfg m net

/-- Claim C9: setting any of the three environment variables to the empty
string yields exactly the same configuration as leaving it unset, because
`or` treats the falsy empty string like None; in particular an all-empty
environment yields the all-default configuration. -/
theorem empty_env_same_as_unset (a b c : Option String) :
    configOf ⟨some "", b, c⟩ = configOf ⟨none, b, c⟩ ∧
    configOf ⟨a, some "", c⟩ = configOf ⟨a, none, c⟩ ∧
    configOf ⟨a, b, some ""⟩ = configOf ⟨a, b, none⟩ ∧
    configOf ⟨some "", some "", some ""⟩ = some defaultConfig := by
  refine ⟨?_, ?_, ?_, by decide⟩ <;> simp [configOf, intOr, strOr]

/-- Claim C10: in every cycle that exceeds the threshold, the text logged at
critical severity and the string sent as the "message" field of the POST
payload are the very same message string. -/
theorem critical_log_equals_payload (cfg : Config) (s : MemorySample) (net : NetOutcome)
    (h : (cfg.USAGE_THRESHOLD : ℚ) < s.percent_used) :
    ∃ m, (check_ram cfg (some s) net).logs.head? = some ⟨.critical, m⟩ ∧
      (check_ram cfg (some s) net).posts = [⟨cfg.API_URL, [("message", m)]⟩] := by
  refine ⟨messageOf cfg s.total_ram s.percent_used, ?_, ?_⟩
  · rw [check_ram_some_gt cfg s net h]
    rfl
  · rw [check_ram_some_gt cfg s net h]
    exact send_alert_posts_eq cfg _ net

/-- Witness for C10: at the default threshold with a 75% sample, the critical
log line and the posted "message" field carry the same string. -/
theorem critical_log_equals_payload_witness :
    ∃ m, (check_ram defaultConfig (some ⟨1073741824, 75⟩) (.response 200)).logs.head?
        = some ⟨.critical, m⟩ ∧
      (check_ram defaultConfig (some ⟨1073741824, 75⟩) (.response 200)).posts
        = [⟨defaultConfig.API_URL, [("message", m)]⟩] :=
  critical_log_equals_payload defaultConfig ⟨1073741824, 75⟩ (.response 200) (by decide)

end RamMonitor
